import Mathlib

/-!
# Verification of the Pytorch-Gpipe pipeline engine

A shallow embedding of the pipeline execution engine of the Pytorch-Gpipe
repository, covering `pytorch_Gpipe/pipeline/utils.py` and
`pytorch_Gpipe/pipeline/sync_wrapper.py`, together with theorems settling the
stated claims about stage wrappers, checkpoint queues, placeholder synthesis
and micro-batch splitting.

Modelling conventions:
* A `Tensors` value (nested tuple/list of tensors, where a slot may also hold
  Python `None`) is the inductive `Py α`: `Py.none` is Python `None`,
  `Py.tens a` a tensor leaf, `Py.tup l` a tuple/list container (tuple vs list
  is not distinguished; the code preserves the container type and no claim
  depends on which one it is).
* Machine-level tensors are the record `Tens`, keeping the fields the claims
  depend on: the shape, the device value, an identity token for the tensor's
  `.device` object (Python `is` compares object identity, not value), and a
  `uid` distinguishing tensor values.
* Python exceptions are the inductive `PyErr`; fallible operations return
  `Except PyErr _` or carry the exception together with the mutated state,
  when the source mutates state before raising.
* CUDA RNG state is a map from device value to an abstract state (`Nat`).
-/

namespace GPipe

/-- A Python exception as raised by the embedded code: `TypeError` (e.g.
iterating `None`), `IndexError` (e.g. `list.pop(0)` on an empty list, `x[0]`
on an empty tuple) and `ZeroDivisionError`. -/
inductive PyErr where
  | typeError
  | indexError
  | zeroDivisionError
deriving DecidableEq

/-- A `Tensors` value: Python `None`, a tensor leaf, or a tuple/list of
`Tensors` values (the source keeps the concrete container type via
`type(tensors)`; the distinction is immaterial here and not modelled). -/
inductive Py (α : Type) where
  | none
  | tens (a : α)
  | tup (l : List (Py α))

mutual

def Py.beq {α : Type} [DecidableEq α] : Py α → Py α → Bool
  | .none, .none => true
  | .tens a, .tens b => a = b
  | .tup l, .tup m => Py.beqList l m
  | _, _ => false

def Py.beqList {α : Type} [DecidableEq α] : List (Py α) → List (Py α) → Bool
  | [], [] => true
  | x :: xs, y :: ys => Py.beq x y && Py.beqList xs ys
  | _, _ => false

end

mutual

theorem Py.beq_iff {α : Type} [DecidableEq α] : ∀ (x y : Py α), Py.beq x y = true ↔ x = y
  | .none, .none => by simp [Py.beq]
  | .none, .tens _ => by simp [Py.beq]
  | .none, .tup _ => by simp [Py.beq]
  | .tens _, .none => by simp [Py.beq]
  | .tens _, .tens _ => by simp [Py.beq]
  | .tens _, .tup _ => by simp [Py.beq]
  | .tup _, .none => by simp [Py.beq]
  | .tup _, .tens _ => by simp [Py.beq]
  | .tup l, .tup m => by
      simp only [Py.beq, Py.tup.injEq]
      exact Py.beqList_iff l m

theorem Py.beqList_iff {α : Type} [DecidableEq α] :
    ∀ (l m : List (Py α)), Py.beqList l m = true ↔ l = m
  | [], [] => by simp [Py.beqList]
  | [], _ :: _ => by simp [Py.beqList]
  | _ :: _, [] => by simp [Py.beqList]
  | x :: xs, y :: ys => by
      simp only [Py.beqList, Bool.and_eq_true, List.cons.injEq]
      exact and_congr (Py.beq_iff x y) (Py.beqList_iff xs ys)

end

instance {α : Type} [DecidableEq α] : DecidableEq (Py α) := fun x y =>
  decidable_of_iff (Py.beq x y = true) (Py.beq_iff x y)

instance {ε α : Type} [DecidableEq ε] [DecidableEq α] : DecidableEq (Except ε α) := fun a b =>
  match a, b with
  | .error e, .error f =>
      if h : e = f then .isTrue (by rw [h]) else .isFalse (by simp [h])
  | .error _, .ok _ => .isFalse (by simp)
  | .ok _, .error _ => .isFalse (by simp)
  | .ok x, .ok y =>
      if h : x = y then .isTrue (by rw [h]) else .isFalse (by simp [h])

/-- A torch tensor, abstracted to the observables the claims use.
`shape` is the list of dimension sizes.  `device` is the device the tensor
resides on, as a value (two tensors on `cuda:1` have equal `device`).
`devId` is an identity token for the Python `torch.device` *object* reachable
as `tensor.device`: the source's `tensor.device is not self.device` compares
object identity, which is strictly finer than value equality.  `uid`
distinguishes tensor values (payloads are never inspected by the pipeline). -/
structure Tens where
  shape : List Nat
  device : Nat
  devId : Nat
  uid : Nat
deriving DecidableEq

mutual

/-- `utils.tensors_map(tensors, f)`: maps `f` over the tensor leaves, keeping
the container structure.  The `isinstance(tensors, torch.Tensor)` test fails
for `None`, after which the code treats `None` as a container and iterating it
raises `TypeError`; so a `None` leaf faults (the guards `... if input is None`
found in the lambdas passed by `sync_wrapper.py` are unreachable, which is why
`f` here takes a bare tensor). -/
def tensors_map {α β : Type} (f : α → Py β) : Py α → Except PyErr (Py β)
  | .tens a => .ok (f a)
  | .none => .error .typeError
  | .tup l =>
    match tensors_map_list f l with
    | .error e => .error e
    | .ok r => .ok (.tup r)

def tensors_map_list {α β : Type} (f : α → Py β) : List (Py α) → Except PyErr (List (Py β))
  | [] => .ok []
  | x :: xs =>
    match tensors_map f x with
    | .error e => .error e
    | .ok y =>
      match tensors_map_list f xs with
      | .error e => .error e
      | .ok ys => .ok (y :: ys)

end

mutual

/-- `utils.tensors_bi_map(t1, t2, f)`: maps `f` over pairs of slots.  The
structure is directed by `t1`: a tensor leaf of `t1` is paired with whatever
subtree of `t2` sits at the same position.  As in `tensors_map`, a `None` in
`t1` is neither a tensor nor iterable, so `zip(t1, t2)` raises `TypeError`;
likewise `zip` over a container `t1` raises when `t2` is `None`.  (Zipping a
container against a tensor would iterate the tensor's rows; no pipeline call
site mixes structures this way and it is modelled as a fault.)  `zip`
truncates at the shorter container. -/
def tensors_bi_map {α β γ : Type} (f : α → Py β → Py γ) :
    Py α → Py β → Except PyErr (Py γ)
  | .tens a, y => .ok (f a y)
  | .none, _ => .error .typeError
  | .tup l, .tup m =>
    match tensors_bi_map_list f l m with
    | .error e => .error e
    | .ok r => .ok (.tup r)
  | .tup _, _ => .error .typeError

def tensors_bi_map_list {α β γ : Type} (f : α → Py β → Py γ) :
    List (Py α) → List (Py β) → Except PyErr (List (Py γ))
  | [], _ => .ok []
  | _ :: _, [] => .ok []
  | x :: xs, y :: ys =>
    match tensors_bi_map f x y with
    | .error e => .error e
    | .ok z =>
      match tensors_bi_map_list f xs ys with
      | .error e => .error e
      | .ok zs => .ok (z :: zs)

end

mutual

/-- `utils.get_devices(tensors)`: the devices of the tensor leaves, in
left-to-right order (the source appends to a list inside a `tensors_map`
call, so a `None` leaf faults exactly as in `tensors_map`). -/
def get_devices : Py Tens → Except PyErr (List Nat)
  | .tens t => .ok [t.device]
  | .none => .error .typeError
  | .tup l => get_devices_list l

def get_devices_list : List (Py Tens) → Except PyErr (List Nat)
  | [] => .ok []
  | x :: xs =>
    match get_devices x with
    | .error e => .error e
    | .ok ds =>
      match get_devices_list xs with
      | .error e => .error e
      | .ok rest => .ok (ds ++ rest)

end

/-- A declared `TensorsShape`: a nested tuple whose innermost tuples are
tuples of ints (the source distinguishes the two dynamically by
`isinstance(shape[0], int)`; empty shape tuples would fault there and are not
representable here). -/
inductive TShape where
  | leaf (dims : List Nat)
  | node (shapes : List TShape)

mutual

/-- `utils.gen_garbage_output(shape, device)`: placeholder synthesis.  At an
innermost shape it builds `torch.empty(1, *shape, device=device)` — note the
prepended dimension of size 1 — and otherwise rebuilds the container.  The
fresh tensor's `devId`/`uid` model a freshly allocated object (token 0). -/
def gen_garbage_output (shape : TShape) (device : Nat) : Py Tens :=
  match shape with
  | .leaf dims => .tens { shape := 1 :: dims, device := device, devId := 0, uid := 0 }
  | .node l => .tup (gen_garbage_list l device)

def gen_garbage_list : List TShape → Nat → List (Py Tens)
  | [], _ => []
  | s :: ss, device => gen_garbage_output s device :: gen_garbage_list ss device

end

/-- Python `len(x)` for the values the wrappers apply it to: the length of a
container, or `size(0)` of a tensor (`len` of a 0-dim tensor raises
`TypeError`, as does `len(None)`). -/
def py_len : Py Tens → Except PyErr Nat
  | .tens t =>
    match t.shape with
    | [] => .error .typeError
    | d :: _ => .ok d
  | .none => .error .typeError
  | .tup l => .ok l.length

/-- Python `x[0]` for the same values: the first element of a container
(`IndexError` when empty), or the first dim-0 slice of a tensor (dropping the
leading dimension). -/
def py_get0 : Py Tens → Except PyErr (Py Tens)
  | .tens t =>
    match t.shape with
    | [] => .error .indexError
    | d :: rest => if d = 0 then .error .indexError else .ok (.tens { t with shape := rest })
  | .none => .error .typeError
  | .tup [] => .error .indexError
  | .tup (x :: _) => .ok x

/-- The `if len(output) == 1: output = output[0]` idiom the wrappers apply to
their return value. -/
def unwrap_single (v : Py Tens) : Except PyErr (Py Tens) :=
  match py_len v with
  | .error e => .error e
  | .ok n => if n = 1 then py_get0 v else .ok v

end GPipe

namespace GPipe

/-- Modelled from the spec: `pipeline/forward_mode.py` (class `ForwardMode`)
is not among the available sources.  `sync_wrapper.py` uses
`ForwardMode.train` and `ForwardMode.backward`; the spec's mode set is
`{forward-eval, forward-train, reverse}`, so the evaluation variant is named
`eval_mode` here (its source name is unknown). -/
inductive ForwardMode where
  | train
  | eval_mode
  | backward
deriving DecidableEq

/-- Modelled from the spec: `pipeline/cycle_counter.py` (class `CycleCounter`)
is not among the available sources.  Per spec section 4.1 it holds the current
cycle `count`, the micro-batch count `num_micro` (`M`) and the mode, read by
every stage through `cur_mode`, `get_count`, `output_valid` and
`input_valid`. -/
structure CycleCounter where
  count : Nat
  num_micro : Nat
  cur_mode : ForwardMode

def CycleCounter.get_count (c : CycleCounter) : Nat := c.count

/-- Modelled from the spec (section 4.1): `output_valid(i)` iff
`i ≤ c < i + M`. -/
def CycleCounter.output_valid (c : CycleCounter) (i : Nat) : Bool :=
  decide (i ≤ c.count) && decide (c.count < i + c.num_micro)

/-- Modelled from the spec (section 4.1): `input_valid(i)` iff
`i ≤ c - 1 < i + M`, equivalently `i + 1 ≤ c ≤ i + M`. -/
def CycleCounter.input_valid (c : CycleCounter) (i : Nat) : Bool :=
  decide (i + 1 ≤ c.count) && decide (c.count ≤ i + c.num_micro)

/-- The process-wide CUDA RNG environment: a map from device value to an
abstract RNG state. -/
def Rng : Type := Nat → Nat

/-- `torch.cuda.get_rng_state(device)`. -/
def get_rng_state (rng : Rng) (device : Nat) : Nat := rng device

/-- `torch.cuda.set_rng_state(state, device)`. -/
def set_rng_state (rng : Rng) (device : Nat) (s : Nat) : Rng :=
  fun d => if d = device then s else rng d

/-- `tensor.to(device, non_blocking=True)`: the same tensor value on the
target device.  (When the tensor already lives there `.to` returns the tensor
itself; the value-level description is the same.  Only the device *value*
changes; `devId` is the identity token of the incoming tensor's `.device`
object and is only ever read for incoming tensors.) -/
def tens_to (t : Tens) (device : Nat) : Tens := { t with device := device }

/-- `input.clone().detach()` / `input.clone()`: a value-equal copy (storage
identity is not modelled). -/
def clone_detach (t : Tens) : Tens := t

/-- `act.requires_grad_().clone()` followed by `clone.retain_grad()` in
`SyncWrapper.backward_mode.prepare_activation`: a value-equal gradient-tracking
copy (autograd bookkeeping is not modelled). -/
def prepare_activation (t : Tens) : Tens := t

/-- `torch.empty_like(t)`: a fresh uninitialized tensor with `t`'s shape and
device. -/
def empty_like (t : Tens) : Tens :=
  { shape := t.shape, device := t.device, devId := 0, uid := 0 }

/-- The merge lambda `lambda t1, t2: t2 if t1 is None else t1` passed to
`tensors_bi_map` by `SyncWrapper.forward` and `SyncWrapper.backward_mode`.
`tensors_bi_map` applies its function only at tensor leaves of the first
argument (a `None` slot faults inside `zip` first), so the `t1 is None`
branch — the fallback to the newly arrived `t2` — is unreachable, and at the
type of this embedding the lambda degenerates to its `else` branch. -/
def merge_pref_buffered : Tens → Py Tens → Py Tens :=
  fun t1 _t2 => .tens t1

/-- Mutable state of a `SyncWrapper` (`sync_wrapper.py`, class `SyncWrapper`):
device (value and identity token of the `torch.device` object built in
`__init__`), pipeline position `gpu_num`, declared `output_shapes`, the two
FIFO checkpoint queues `activations` and `rng_states`, the buffered
`prev_inputs` and `grads` (Python `None` initially, i.e. `Py.none`), and
`input_devices` (Python `None` initially).  The wrapped `module` and the
`counter` are passed to the operations explicitly. -/
structure SyncWrapper where
  device : Nat
  devId : Nat
  gpu_num : Nat
  output_shapes : TShape
  activations : List (Py Tens)
  rng_states : List Nat
  prev_inputs : Py Tens
  grads : Py Tens
  input_devices : Option (List Nat)

/-- `SyncWrapper.delay_device(tensor)`: `tensor.device is not self.device` —
CPython object identity on `torch.device` objects, modelled by the identity
tokens. -/
def SyncWrapper.delay_device (w : SyncWrapper) (t : Tens) : Bool :=
  t.devId != w.devId

/-- `SyncWrapper.finished_prop()`: resets `prev_inputs` and `grads` to `None`
(and nothing else). -/
def SyncWrapper.finished_prop (w : SyncWrapper) : SyncWrapper :=
  { w with prev_inputs := .none, grads := .none }

/-- Result of a `SyncWrapper` call: the raised exception if any, the returned
value (`Py.none` when an exception escaped), the wrapper state and RNG
environment as observable afterwards, and the list of arguments the wrapped
`module` was invoked on, in order. -/
structure SyncResult where
  err : Option PyErr
  out : Py Tens
  w : SyncWrapper
  rng : Rng
  calls : List (Py Tens)

/-- `SyncWrapper.save_activation(*moved_inputs)`: appends the current RNG
state of the wrapper's device to `rng_states`, then appends a detached copy of
`moved_inputs` to `activations`.  The copy is made by `tensors_map` with
`lambda input: None if input is None else input.clone().detach()`; a `None`
slot faults inside `tensors_map` (the lambda's `None` guard is unreachable),
*after* the RNG state has already been appended. -/
def SyncWrapper.save_activation (w : SyncWrapper) (rng : Rng) (moved : Py Tens) :
    Option PyErr × SyncWrapper :=
  let w1 := { w with rng_states := w.rng_states ++ [get_rng_state rng w.device] }
  match tensors_map (fun t => .tens (clone_detach t)) moved with
  | .error e => (some e, w1)
  | .ok acts => (none, { w1 with activations := w1.activations ++ [acts] })

/-- `SyncWrapper.pop_activation()`: when `output_valid(gpu_num)`, pops the
oldest RNG state (restoring it on the wrapper's device) and then the oldest
activation into `prev_inputs`.  `list.pop(0)` on an empty list raises
`IndexError`: with both queues empty the first pop raises before anything is
mutated; with only `activations` empty the RNG pop and restore have already
happened when the second pop raises. -/
def SyncWrapper.pop_activation (cnt : CycleCounter) (w : SyncWrapper) (rng : Rng) :
    Option PyErr × SyncWrapper × Rng :=
  if cnt.output_valid w.gpu_num then
    match w.rng_states, w.activations with
    | [], _ => (some .indexError, w, rng)
    | r :: rs, [] =>
        (some .indexError, { w with rng_states := rs }, set_rng_state rng w.device r)
    | r :: rs, a :: acts =>
        (none,
         { w with rng_states := rs, activations := acts, prev_inputs := a },
         set_rng_state rng w.device r)
  else (none, w, rng)

/-- `SyncWrapper.backward_mode(*inputs)`: when `input_valid(gpu_num)`, runs
`tensors_bi_map(inputs, self.grads, lambda input, grad: None if grad is None
else input.backward(grad))` (both lambda branches evaluate to `None`;
`Tensor.backward` returns `None` and its gradient-accumulation side effect is
outside this model, but the call faults exactly as `tensors_bi_map` does).
When `output_valid(gpu_num)`, reassigns `prev_inputs` through
`prepare_activation` (a `None` slot faults there first), merges it with
`inputs` and invokes the module on the result; otherwise synthesizes a
placeholder from the declared output shapes, unwrapped when of length 1. -/
def SyncWrapper.backward_mode (module : Py Tens → Py Tens) (cnt : CycleCounter)
    (w : SyncWrapper) (rng : Rng) (inputs : List (Py Tens)) : SyncResult :=
  let step1 : Except PyErr Unit :=
    if cnt.input_valid w.gpu_num then
      match tensors_bi_map (fun _input _grad => (Py.none : Py Tens)) (.tup inputs) w.grads with
      | .error e => .error e
      | .ok _ => .ok ()
    else .ok ()
  match step1 with
  | .error e => { err := some e, out := .none, w := w, rng := rng, calls := [] }
  | .ok _ =>
    if cnt.output_valid w.gpu_num then
      match tensors_map (fun t => .tens (prepare_activation t)) w.prev_inputs with
      | .error e => { err := some e, out := .none, w := w, rng := rng, calls := [] }
      | .ok prepared =>
        let w1 := { w with prev_inputs := prepared }
        match tensors_bi_map merge_pref_buffered prepared (.tup inputs) with
        | .error e => { err := some e, out := .none, w := w1, rng := rng, calls := [] }
        | .ok used =>
          { err := Option.none, out := module used, w := w1, rng := rng, calls := [used] }
    else
      match unwrap_single (gen_garbage_output w.output_shapes w.device) with
      | .error e => { err := some e, out := .none, w := w, rng := rng, calls := [] }
      | .ok g => { err := Option.none, out := g, w := w, rng := rng, calls := [] }

/-- `SyncWrapper.forward(*inputs)` (forward modes; `ForwardMode.backward`
dispatches to `backward_mode`).  First the output: when
`output_valid(gpu_num)` the buffered `prev_inputs` is merged with the newly
arrived `inputs` by `tensors_bi_map` and the module invoked on the result;
otherwise a placeholder is synthesized (unwrapped when of length 1).  Then
the buffering step: when `input_valid(gpu_num)` the input devices are
recorded on the first valid cycle (`get_count() == gpu_num`), the inputs are
moved — each tensor whose `.device` object is identical to the wrapper's
device is recorded as `None` instead (`delay_device`) — the moved record is
checkpointed in `train` mode, and `prev_inputs` is set to it; when not
input-valid, `prev_inputs` is set to an all-`None` record built by
`tensors_map` with `lambda _: None`. -/
def SyncWrapper.forward (module : Py Tens → Py Tens) (cnt : CycleCounter)
    (w : SyncWrapper) (rng : Rng) (inputs : List (Py Tens)) : SyncResult :=
  if cnt.cur_mode = ForwardMode.backward then
    SyncWrapper.backward_mode module cnt w rng inputs
  else
    let phase1 : Except PyErr (Py Tens × List (Py Tens)) :=
      if cnt.output_valid w.gpu_num then
        match tensors_bi_map merge_pref_buffered w.prev_inputs (.tup inputs) with
        | .error e => .error e
        | .ok used => .ok (module used, [used])
      else
        match unwrap_single (gen_garbage_output w.output_shapes w.device) with
        | .error e => .error e
        | .ok g => .ok (g, [])
    match phase1 with
    | .error e => { err := some e, out := .none, w := w, rng := rng, calls := [] }
    | .ok (output, calls) =>
      if cnt.input_valid w.gpu_num then
        let devs : Except PyErr SyncWrapper :=
          if cnt.get_count = w.gpu_num then
            match get_devices (.tup inputs) with
            | .error e => .error e
            | .ok ds => .ok { w with input_devices := some ds }
          else .ok w
        match devs with
        | .error e => { err := some e, out := output, w := w, rng := rng, calls := calls }
        | .ok w1 =>
          match tensors_map
              (fun t => if !(w.delay_device t) then .none else .tens (tens_to t w.device))
              (.tup inputs) with
          | .error e => { err := some e, out := output, w := w1, rng := rng, calls := calls }
          | .ok moved =>
            if cnt.cur_mode = ForwardMode.train then
              match SyncWrapper.save_activation w1 rng moved with
              | (some e, w2) =>
                  { err := some e, out := output, w := w2, rng := rng, calls := calls }
              | (Option.none, w2) =>
                  { err := Option.none, out := output,
                    w := { w2 with prev_inputs := moved }, rng := rng, calls := calls }
            else
              { err := Option.none, out := output,
                w := { w1 with prev_inputs := moved }, rng := rng, calls := calls }
      else
        match tensors_map (fun _ => Py.none) (.tup inputs) with
        | .error e => { err := some e, out := output, w := w, rng := rng, calls := calls }
        | .ok nulls =>
            { err := Option.none, out := output,
              w := { w with prev_inputs := nulls }, rng := rng, calls := calls }

end GPipe

namespace GPipe

/-- Mutable state of the entry stage (`sync_wrapper.py`, class
`ActivationSavingLayer`): device, the two FIFO checkpoint queues, the buffered
`prev_inputs` (`None` initially) and `gpu_num` (set to `0` in `__init__`). -/
structure ActivationSavingLayer where
  device : Nat
  activations : List (Py Tens)
  rng_states : List Nat
  prev_inputs : Py Tens
  gpu_num : Nat

/-- `ActivationSavingLayer.finished_prop()`: resets `prev_inputs` to `None`
(and nothing else). -/
def ActivationSavingLayer.finished_prop (w : ActivationSavingLayer) :
    ActivationSavingLayer :=
  { w with prev_inputs := .none }

/-- Result of an `ActivationSavingLayer` call, as `SyncResult`. -/
structure ASLResult where
  err : Option PyErr
  out : Py Tens
  w : ActivationSavingLayer
  rng : Rng

/-- `ActivationSavingLayer.save_activation(*moved_inputs)`: appends the
current RNG state of the layer's device to `rng_states`, then appends a copy
of `moved_inputs` (made by `tensors_map` with `lambda input: input.clone()`)
to `activations`. -/
def ActivationSavingLayer.save_activation (w : ActivationSavingLayer) (rng : Rng)
    (moved : Py Tens) : Option PyErr × ActivationSavingLayer :=
  let w1 := { w with rng_states := w.rng_states ++ [get_rng_state rng w.device] }
  match tensors_map (fun t => .tens (clone_detach t)) moved with
  | .error e => (some e, w1)
  | .ok acts => (none, { w1 with activations := w1.activations ++ [acts] })

/-- `ActivationSavingLayer.pop_activation()`: when `output_valid(gpu_num)`,
pops the oldest RNG state (restoring it on the layer's device) and then the
oldest activation into `prev_inputs`; `list.pop(0)` on an empty list raises
`IndexError` exactly as in `SyncWrapper.pop_activation`. -/
def ActivationSavingLayer.pop_activation (cnt : CycleCounter)
    (w : ActivationSavingLayer) (rng : Rng) :
    Option PyErr × ActivationSavingLayer × Rng :=
  if cnt.output_valid w.gpu_num then
    match w.rng_states, w.activations with
    | [], _ => (some .indexError, w, rng)
    | r :: rs, [] =>
        (some .indexError, { w with rng_states := rs }, set_rng_state rng w.device r)
    | r :: rs, a :: acts =>
        (none,
         { w with rng_states := rs, activations := acts, prev_inputs := a },
         set_rng_state rng w.device r)
  else (none, w, rng)

/-- `ActivationSavingLayer.backward_mode(*inputs)`: when `output_valid(0)`
(the source hard-codes stage index 0 here) the output is `prev_inputs` — the
checkpointed value installed by `pop_activation`; otherwise a record of
`torch.empty_like` placeholders shaped like `inputs`.  The result is
unwrapped when of length 1. -/
def ActivationSavingLayer.backward_mode (cnt : CycleCounter)
    (w : ActivationSavingLayer) (rng : Rng) (inputs : List (Py Tens)) : ASLResult :=
  let outc : Except PyErr (Py Tens) :=
    if cnt.output_valid 0 then .ok w.prev_inputs
    else
      match tensors_map (fun t => .tens (empty_like t)) (.tup inputs) with
      | .error e => .error e
      | .ok ph => .ok ph
  match outc with
  | .error e => { err := some e, out := .none, w := w, rng := rng }
  | .ok output =>
    match unwrap_single output with
    | .error e => { err := some e, out := .none, w := w, rng := rng }
    | .ok out1 => { err := Option.none, out := out1, w := w, rng := rng }

/-- `ActivationSavingLayer.forward(*inputs)` (forward modes;
`ForwardMode.backward` dispatches to `backward_mode`): moves every input to
the layer's device, checkpoints the moved record when the mode is `train` and
`input_valid(gpu_num)` holds, and returns the moved record (unwrapped when of
length 1). -/
def ActivationSavingLayer.forward (cnt : CycleCounter) (w : ActivationSavingLayer)
    (rng : Rng) (inputs : List (Py Tens)) : ASLResult :=
  if cnt.cur_mode = ForwardMode.backward then
    ActivationSavingLayer.backward_mode cnt w rng inputs
  else
    match tensors_map (fun t => .tens (tens_to t w.device)) (.tup inputs) with
    | .error e => { err := some e, out := .none, w := w, rng := rng }
    | .ok moved =>
      let step2 : Option PyErr × ActivationSavingLayer :=
        if cnt.cur_mode = ForwardMode.train ∧ cnt.input_valid w.gpu_num then
          ActivationSavingLayer.save_activation w rng moved
        else (none, w)
      match step2 with
      | (some e, w1) => { err := some e, out := .none, w := w1, rng := rng }
      | (Option.none, w1) =>
        match unwrap_single moved with
        | .error e => { err := some e, out := .none, w := w1, rng := rng }
        | .ok out1 => { err := Option.none, out := out1, w := w1, rng := rng }

/-- Modelled from the spec: the driver (`pipeline_parallel.py`, not among the
available sources) performs a reverse-phase cycle of the entry stage by
calling `pop_activation()` and then running the stage, i.e. `backward_mode`
(spec section 4.2, `reverse(cycle)`). -/
def ActivationSavingLayer.reverse_step (cnt : CycleCounter)
    (w : ActivationSavingLayer) (rng : Rng) (inputs : List (Py Tens)) : ASLResult :=
  match ActivationSavingLayer.pop_activation cnt w rng with
  | (some e, w1, rng1) => { err := some e, out := .none, w := w1, rng := rng1 }
  | (Option.none, w1, rng1) => ActivationSavingLayer.backward_mode cnt w1 rng1 inputs

/-- A `LayerWrapper` (`sync_wrapper.py`, class `LayerWrapper`): a stateless
wrapper holding its pipeline position, device and declared output shapes. -/
structure LayerWrapper where
  gpu_num : Nat
  device : Nat
  output_shapes : TShape

/-- `LayerWrapper.forward(*inputs)`: when `output_valid(gpu_num)`, invoke the
wrapped module on the inputs and return its result; otherwise synthesize a
placeholder of the declared output shapes (unwrapped when of length 1) without
invoking the module.  The second component lists the arguments the module was
invoked on, in order. -/
def LayerWrapper.forward (module : Py Tens → Py Tens) (cnt : CycleCounter)
    (lw : LayerWrapper) (inputs : List (Py Tens)) :
    Except PyErr (Py Tens × List (Py Tens)) :=
  if cnt.output_valid lw.gpu_num then
    .ok (module (.tup inputs), [.tup inputs])
  else
    match unwrap_single (gen_garbage_output lw.output_shapes lw.device) with
    | .error e => .error e
    | .ok g => .ok (g, [])

end GPipe

namespace GPipe

mutual

/-- `utils.batch_dim(tensors)`: `size(0)` of the leftmost tensor leaf.  For
the splitting claims a tensor is its list of dim-0 rows (`List R`), so
`size(0)` is the list length.  `tensors[0]` raises `IndexError` on an empty
container and `TypeError` on `None`. -/
def batch_dim {R : Type} : Py (List R) → Except PyErr Nat
  | .tens rows => .ok rows.length
  | .none => .error .typeError
  | .tup l => batch_dim_first l

def batch_dim_first {R : Type} : List (Py (List R)) → Except PyErr Nat
  | [] => .error .indexError
  | x :: _ => batch_dim x

end

/-- The slicing lambda of `utils.tensors_split`:
`tensor[i * size : (i+1) * size]` on dim-0 rows. -/
def slice_rows {R : Type} (size i : Nat) (rows : List R) : List R :=
  (rows.drop (i * size)).take size

/-- One `tensors_map` slice per index, in index order (the generator feeding
`tuple(...)` in the source). -/
def split_at_indices {R : Type} (tensors : Py (List R)) (size : Nat) :
    List Nat → Except PyErr (List (Py (List R)))
  | [] => .ok []
  | i :: rest =>
    match tensors_map (fun rows => .tens (slice_rows size i rows)) tensors with
    | .error e => .error e
    | .ok piece =>
      match split_at_indices tensors size rest with
      | .error e => .error e
      | .ok pieces => .ok (piece :: pieces)

/-- `utils.tensors_split(tensors, size)`: `num_splits = ceil(batch_size /
size)` pieces, the `i`-th obtained by slicing every leaf to rows
`[i*size, (i+1)*size)`.  Division by `size = 0` raises
`ZeroDivisionError`. -/
def tensors_split {R : Type} (tensors : Py (List R)) (size : Nat) :
    Except PyErr (List (Py (List R))) :=
  if size = 0 then .error .zeroDivisionError
  else
    match batch_dim tensors with
    | .error e => .error e
    | .ok batch_size =>
      split_at_indices tensors size (List.range ((batch_size + size - 1) / size))

mutual

/-- `utils.tensors_cat(tensors)`: `tensors[0]` on an empty tuple raises
`IndexError`; a tensor head means `torch.cat(tuple(tensors), dim=0)` (every
element must then be a tensor); a container head recurses column-wise over
`zip(*tensors)`; a `None` head faults in `zip(*tensors)`. -/
def tensors_cat {R : Type} : List (Py (List R)) → Except PyErr (Py (List R))
  | [] => .error .indexError
  | x :: rest => cat_first x rest

def cat_first {R : Type} : Py (List R) → List (Py (List R)) → Except PyErr (Py (List R))
  | .tens rows, rest =>
    match cat_rows rest with
    | .error e => .error e
    | .ok more => .ok (.tens (rows ++ more))
  | .none, _ => .error .typeError
  | .tup l, rest =>
    match untup rest with
    | .error e => .error e
    | .ok ls =>
      match cat_columns l ls with
      | .error e => .error e
      | .ok cols => .ok (.tup cols)

/-- The tail of `torch.cat`'s argument: all further rows, every element a
tensor (`torch.cat` raises `TypeError` otherwise). -/
def cat_rows {R : Type} : List (Py (List R)) → Except PyErr (List R)
  | [] => .ok []
  | .tens rows :: rest =>
    match cat_rows rest with
    | .error e => .error e
    | .ok more => .ok (rows ++ more)
  | _ :: _ => .error .typeError

/-- The element lists of the remaining containers handed to `zip(*tensors)`:
`zip` raises `TypeError` when an argument is `None` (a tensor argument would
iterate its rows; no pipeline call site does this and it is modelled as a
fault). -/
def untup {R : Type} : List (Py (List R)) → Except PyErr (List (List (Py (List R))))
  | [] => .ok []
  | .tup l :: rest =>
    match untup rest with
    | .error e => .error e
    | .ok ls => .ok (l :: ls)
  | _ :: _ => .error .typeError

/-- `container([tensors_cat(ts) for ts in zip(*tensors)])`: walk the columns,
recursing on each; `zip` truncates at the shortest argument (the first
container or any of the others). -/
def cat_columns {R : Type} :
    List (Py (List R)) → List (List (Py (List R))) → Except PyErr (List (Py (List R)))
  | [], _ => .ok []
  | x :: xs, ls =>
    if ls.any List.isEmpty then .ok []
    else
      match cat_first x (ls.filterMap List.head?) with
      | .error e => .error e
      | .ok col =>
        match cat_columns xs (ls.map List.tail) with
        | .error e => .error e
        | .ok cols => .ok (col :: cols)

end

end GPipe

namespace GPipe

mutual

/-- Specification-side check for the placeholder claims: every tensor slot of
the value has *exactly* the corresponding declared shape, with matching
structure. -/
def shapes_exact : TShape → Py Tens → Bool
  | .leaf dims, .tens t => t.shape == dims
  | .node l, .tup m => shapes_exact_list l m
  | _, _ => false

def shapes_exact_list : List TShape → List (Py Tens) → Bool
  | [], [] => true
  | s :: ss, x :: xs => shapes_exact s x && shapes_exact_list ss xs
  | _, _ => false

end

mutual

/-- Specification-side check: every tensor slot of the value has the
corresponding declared shape with an extra leading dimension of size 1
prepended, with matching structure. -/
def shapes_lead1 : TShape → Py Tens → Bool
  | .leaf dims, .tens t => t.shape == 1 :: dims
  | .node l, .tup m => shapes_lead1_list l m
  | _, _ => false

def shapes_lead1_list : List TShape → List (Py Tens) → Bool
  | [], [] => true
  | s :: ss, x :: xs => shapes_lead1 s x && shapes_lead1_list ss xs
  | _, _ => false

end

mutual

theorem gen_garbage_shapes_lead1 :
    ∀ (sh : TShape) (device : Nat), shapes_lead1 sh (gen_garbage_output sh device) = true
  | .leaf dims, device => by simp [gen_garbage_output, shapes_lead1]
  | .node l, device => by
      simp only [gen_garbage_output, shapes_lead1]
      exact gen_garbage_shapes_lead1_list l device

theorem gen_garbage_shapes_lead1_list :
    ∀ (l : List TShape) (device : Nat),
      shapes_lead1_list l (gen_garbage_list l device) = true
  | [], _ => rfl
  | s :: ss, device => by
      simp only [gen_garbage_list, shapes_lead1_list, Bool.and_eq_true]
      exact ⟨gen_garbage_shapes_lead1 s device, gen_garbage_shapes_lead1_list ss device⟩

end

end GPipe

namespace GPipe

mutual

/-- Specification-side well-formedness of a batch: no `None` slot, no empty
container, and every tensor leaf with exactly `B` dim-0 rows. -/
def uniform {R : Type} (B : Nat) : Py (List R) → Bool
  | .tens rows => rows.length == B
  | .none => false
  | .tup l => !l.isEmpty && uniform_list B l

def uniform_list {R : Type} (B : Nat) : List (Py (List R)) → Bool
  | [] => true
  | x :: xs => uniform B x && uniform_list B xs

end

mutual

/-- Specification-side description of piece `i` of `tensors_split`: every
leaf sliced to rows `[i*size, (i+1)*size)`. -/
def slice_py {R : Type} (size i : Nat) : Py (List R) → Py (List R)
  | .tens rows => .tens (slice_rows size i rows)
  | .none => .none
  | .tup l => .tup (slice_py_list size i l)

def slice_py_list {R : Type} (size i : Nat) : List (Py (List R)) → List (Py (List R))
  | [] => []
  | x :: xs => slice_py size i x :: slice_py_list size i xs

end

theorem slice_py_list_eq_map {R : Type} (size i : Nat) :
    ∀ (l : List (Py (List R))), slice_py_list size i l = l.map (slice_py size i)
  | [] => rfl
  | x :: xs => by simp [slice_py_list, slice_py_list_eq_map size i xs]

mutual

theorem batch_dim_of_uniform {R : Type} (B : Nat) :
    ∀ (v : Py (List R)), uniform B v = true → batch_dim v = .ok B
  | .tens rows, h => by
      simp only [uniform, beq_iff_eq] at h
      simp [batch_dim, h]
  | .none, h => by simp [uniform] at h
  | .tup l, h => by
      simp only [uniform, Bool.and_eq_true] at h
      simpa [batch_dim] using batch_dim_first_of_uniform B l h.1 h.2

theorem batch_dim_first_of_uniform {R : Type} (B : Nat) :
    ∀ (l : List (Py (List R))), (!l.isEmpty) = true → uniform_list B l = true →
      batch_dim_first l = .ok B
  | [], h, _ => by simp at h
  | x :: xs, _, h => by
      simp only [uniform_list, Bool.and_eq_true] at h
      simpa [batch_dim_first] using batch_dim_of_uniform B x h.1

end

mutual

theorem tensors_map_slice {R : Type} (size i : Nat) :
    ∀ (v : Py (List R)) (B : Nat), uniform B v = true →
      tensors_map (fun rows => .tens (slice_rows size i rows)) v = .ok (slice_py size i v)
  | .tens rows, B, _ => by simp [tensors_map, slice_py]
  | .none, B, h => by simp [uniform] at h
  | .tup l, B, h => by
      simp only [uniform, Bool.and_eq_true] at h
      simp [tensors_map, slice_py, tensors_map_slice_list size i l B h.2]

theorem tensors_map_slice_list {R : Type} (size i : Nat) :
    ∀ (l : List (Py (List R))) (B : Nat), uniform_list B l = true →
      tensors_map_list (fun rows => .tens (slice_rows size i rows)) l =
        .ok (slice_py_list size i l)
  | [], B, _ => rfl
  | x :: xs, B, h => by
      simp only [uniform_list, Bool.and_eq_true] at h
      simp [tensors_map_list, slice_py_list, tensors_map_slice size i x B h.1,
        tensors_map_slice_list size i xs B h.2]

end

theorem split_at_indices_of_uniform {R : Type} (size : Nat) (v : Py (List R)) (B : Nat)
    (hu : uniform B v = true) :
    ∀ (idxs : List Nat),
      split_at_indices v size idxs = .ok (idxs.map (fun i => slice_py size i v))
  | [] => rfl
  | i :: rest => by
      simp [split_at_indices, tensors_map_slice size i v B hu,
        split_at_indices_of_uniform size v B hu rest]

/-- `tensors_split` on a well-formed batch: `ceil(B / size)` slices, in index
order. -/
theorem tensors_split_of_uniform {R : Type} (v : Py (List R)) (B size : Nat)
    (hu : uniform B v = true) (hs : 1 ≤ size) :
    tensors_split v size =
      .ok ((List.range ((B + size - 1) / size)).map (fun i => slice_py size i v)) := by
  have hz : ¬ size = 0 := by omega
  simp [tensors_split, hz, batch_dim_of_uniform B v hu,
    split_at_indices_of_uniform size v B hu]

/-- Joining the `clamped` chunks of length `size` recovers the list, as long
as enough chunks are taken. -/
theorem join_chunks {R : Type} (size : Nat) (hs : 1 ≤ size) :
    ∀ (n : Nat) (l : List R), l.length ≤ n * size →
      ((List.range n).map (fun i => slice_rows size i l)).flatten = l
  | 0, l, h => by
      have : l = [] := List.eq_nil_of_length_eq_zero (by omega)
      simp [this]
  | n + 1, l, h => by
      rw [List.range_succ_eq_map]
      simp only [List.map_cons, List.map_map, List.flatten_cons]
      have hrest : ∀ i : Nat, slice_rows size (i + 1) l = slice_rows size i (l.drop size) := by
        intro i
        simp only [slice_rows, List.drop_drop]
        congr 1
        ring_nf
      have hcomp :
          (List.range n).map ((fun i => slice_rows size i l) ∘ Nat.succ) =
            (List.range n).map (fun i => slice_rows size i (l.drop size)) := by
        refine List.map_congr_left ?_
        intro i _
        simpa [Function.comp] using hrest i
      rw [Nat.succ_mul] at h
      rw [hcomp, join_chunks size hs n (l.drop size) (by simp; omega)]
      simp [slice_rows]

theorem cat_rows_map_tens {R : Type} (g : Nat → List R) :
    ∀ (idxs : List Nat),
      cat_rows (idxs.map (fun i => (.tens (g i) : Py (List R)))) = .ok (idxs.map g).flatten
  | [] => rfl
  | i :: rest => by simp [cat_rows, cat_rows_map_tens g rest]

theorem untup_map_tup {R : Type} (g : Nat → List (Py (List R))) :
    ∀ (idxs : List Nat),
      untup (idxs.map (fun i => (.tup (g i) : Py (List R)))) = .ok (idxs.map g)
  | [] => rfl
  | i :: rest => by simp [untup, untup_map_tup g rest]

/-- Sequencing of a list of fallible results, as `cat_columns` produces them. -/
def except_list {A : Type} : List (Except PyErr A) → Except PyErr (List A)
  | [] => .ok []
  | x :: xs =>
    match x with
    | .error e => .error e
    | .ok a =>
      match except_list xs with
      | .error e => .error e
      | .ok rest => .ok (a :: rest)

theorem except_list_ok {A B : Type} (g : B → Except PyErr A) (h : B → A) :
    ∀ (l : List B), (∀ x ∈ l, g x = .ok (h x)) → except_list (l.map g) = .ok (l.map h)
  | [], _ => rfl
  | x :: xs, hall => by
      have hx := hall x (List.mem_cons_self x xs)
      have hxs := except_list_ok g h xs (fun y hy => hall y (List.mem_cons_of_mem x hy))
      simp [except_list, hx, hxs]

/-- `cat_columns` over columns that are `map` images of a common spine `l`
computes, column by column, `cat_first` of the column entries. -/
theorem cat_columns_map {R : Type} (F : Nat → Py (List R) → Py (List R)) (is0 : List Nat) :
    ∀ (l : List (Py (List R))),
      cat_columns (l.map (F 0)) (is0.map (fun i => l.map (F i))) =
        except_list (l.map (fun c => cat_first (F 0 c) (is0.map (fun i => F i c))))
  | [] => by simp [cat_columns, except_list]
  | c :: cs => by
      have hne : ((is0.map (fun i => F i c :: cs.map (F i))).any List.isEmpty) = false := by
        simp [List.any_eq_false]
      have hheads :
          (is0.map (fun i => F i c :: cs.map (F i))).filterMap List.head? =
            is0.map (fun i => F i c) := by
        rw [List.filterMap_map]
        refine List.filterMap_eq_map_iff_forall_eq_some.mpr ?_
        intro i _
        rfl
      have htails :
          (is0.map (fun i => F i c :: cs.map (F i))).map List.tail =
            is0.map (fun i => cs.map (F i)) := by
        rw [List.map_map]
        rfl
      simp only [List.map_cons, cat_columns, hne, Bool.false_eq_true, if_false, hheads, htails]
      rw [cat_columns_map F is0 cs]
      simp only [except_list]
      rcases cat_first (F 0 c) (is0.map (fun i => F i c)) with e | col
      · rfl
      · rcases except_list (cs.map (fun c => cat_first (F 0 c) (is0.map (fun i => F i c)))) with
          e | rest <;> rfl

end GPipe

namespace GPipe

mutual

theorem tensors_cat_slices {R : Type} (s : Nat) (hs : 1 ≤ s) :
    ∀ (v : Py (List R)) (B : Nat), uniform B v = true →
      ∀ n : Nat, 1 ≤ n → B ≤ n * s →
        tensors_cat ((List.range n).map (fun i => slice_py s i v)) = .ok v
  | .tens rows, B, hu, n, hn, hB => by
      have hlen : rows.length = B := by simpa [uniform] using hu
      obtain ⟨m, rfl⟩ : ∃ m, n = m + 1 := ⟨n - 1, by omega⟩
      have hj := join_chunks s hs (m + 1) rows (by omega)
      rw [List.range_succ_eq_map] at hj ⊢
      simp only [List.map_cons, List.map_map, List.flatten_cons] at hj ⊢
      simp only [slice_py, tensors_cat, cat_first]
      have hcomp :
          (List.range m).map ((fun i => (Py.tens (slice_rows s i rows) : Py (List R))) ∘
              Nat.succ) =
            (List.range m).map (fun i => (Py.tens (slice_rows s (i + 1) rows) : Py (List R))) := by
        simp [Function.comp]
      rw [hcomp]
      simp only [cat_rows_map_tens (fun i => slice_rows s (i + 1) rows) (List.range m)]
      have hj2 :
          slice_rows s 0 rows ++
              ((List.range m).map (fun i => slice_rows s (i + 1) rows)).flatten = rows := by
        have hc2 : (List.range m).map ((fun i => slice_rows s i rows) ∘ Nat.succ) =
            (List.range m).map (fun i => slice_rows s (i + 1) rows) := by
          simp [Function.comp]
        rw [hc2] at hj
        exact hj
      rw [hj2]
  | .none, B, hu, n, hn, hB => by simp [uniform] at hu
  | .tup l, B, hu, n, hn, hB => by
      rw [uniform] at hu
      rw [Bool.and_eq_true] at hu
      obtain ⟨m, rfl⟩ : ∃ m, n = m + 1 := ⟨n - 1, by omega⟩
      rw [List.range_succ_eq_map]
      simp only [slice_py, List.map_cons, List.map_map]
      simp only [tensors_cat, cat_first]
      have hcomp :
          (List.range m).map ((fun i => (Py.tup (slice_py_list s i l) : Py (List R))) ∘
              Nat.succ) =
            (List.range m).map (fun i =>
              (Py.tup ((l.map (slice_py s (Nat.succ i)))) : Py (List R))) := by
        simp [Function.comp, slice_py_list_eq_map]
      rw [hcomp]
      simp only [untup_map_tup (fun i => l.map (slice_py s (Nat.succ i))) (List.range m)]
      rw [slice_py_list_eq_map]
      have hmm : (List.range m).map (fun i => l.map (slice_py s (Nat.succ i))) =
          ((List.range m).map Nat.succ).map (fun i => l.map (slice_py s i)) := by
        rw [List.map_map]
        rfl
      rw [hmm]
      have hmain := cat_columns_map (fun i c => slice_py s i c) ((List.range m).map Nat.succ) l
      have hcols :
          ∀ c ∈ l,
            (fun c => cat_first (slice_py s 0 c)
                (((List.range m).map Nat.succ).map (fun i => slice_py s i c))) c = .ok (id c) := by
        intro c hc
        have hcat := tensors_cat_slices_list s hs l B hu.2 c hc (m + 1) (by omega) hB
        rw [List.range_succ_eq_map] at hcat
        simp only [List.map_cons, List.map_map, tensors_cat] at hcat
        simpa [Function.comp] using hcat
      rw [except_list_ok _ id l hcols] at hmain
      simp only [List.map_id] at hmain
      simp only [hmain]

theorem tensors_cat_slices_list {R : Type} (s : Nat) (hs : 1 ≤ s) :
    ∀ (l : List (Py (List R))) (B : Nat), uniform_list B l = true →
      ∀ v ∈ l, ∀ n : Nat, 1 ≤ n → B ≤ n * s →
        tensors_cat ((List.range n).map (fun i => slice_py s i v)) = .ok v
  | [], _, _, v, hv, _, _, _ => absurd hv (List.not_mem_nil v)
  | x :: xs, B, h, v, hv, n, hn, hB => by
      rw [uniform_list] at h
      rw [Bool.and_eq_true] at h
      rcases List.mem_cons.mp hv with rfl | hv2
      · exact tensors_cat_slices s hs v B h.1 n hn hB
      · exact tensors_cat_slices_list s hs xs B h.2 v hv2 n hn hB

end

end GPipe

namespace GPipe

/-- **C8**: for every tensor batch (a well-formed `Tensors` value whose leaves
all carry `B` dim-0 rows) and every micro-batch size `s` with `1 ≤ s ≤ B`,
`tensors_split` produces `ceil(B / s) = (B + s - 1) / s` micro-batches that
partition the batch along dimension 0 in original order, and `tensors_cat`
applied to exactly that sequence reconstructs the original batch: split
followed by concatenate is the identity. -/
theorem C8_split_cat_roundtrip {R : Type} (v : Py (List R)) (B s : Nat)
    (hu : uniform B v = true) (hs1 : 1 ≤ s) (hsB : s ≤ B) :
    ∃ parts, tensors_split v s = .ok parts ∧
      parts.length = (B + s - 1) / s ∧ tensors_cat parts = .ok v := by
  refine ⟨_, tensors_split_of_uniform v B s hu hs1, by simp, ?_⟩
  have hn1 : 1 ≤ (B + s - 1) / s := by
    rw [Nat.one_le_div_iff (by omega)]
    omega
  have hBn : B ≤ ((B + s - 1) / s) * s := by
    have hdm := Nat.div_add_mod (B + s - 1) s
    have hlt : (B + s - 1) % s < s := Nat.mod_lt _ (by omega)
    rw [Nat.mul_comm]
    omega
  exact tensors_cat_slices s hs1 v B hu _ hn1 hBn

/-- A concrete well-formed batch used by the C8 witness: a 1-tuple holding a
tensor with three dim-0 rows. -/
def vW : Py (List Nat) := .tup [.tens [10, 20, 30]]

/-- Witness for C8 at `B = 3`, `s = 2`: the hypotheses hold and the round
trip follows by applying the theorem. -/
theorem C8_witness :
    (uniform 3 vW = true ∧ 1 ≤ 2 ∧ 2 ≤ 3) ∧
      (∃ parts, tensors_split vW 2 = .ok parts ∧
        parts.length = (3 + 2 - 1) / 2 ∧ tensors_cat parts = .ok vW) :=
  ⟨⟨by decide, by decide, by decide⟩,
   C8_split_cat_roundtrip vW 3 2 (by decide) (by decide) (by decide)⟩

end GPipe

namespace GPipe

/-! Concrete fixtures shared by the closed claim theorems, counterexamples
and witnesses. -/

/-- An all-zero RNG environment. -/
def rng0 : Rng := fun _ => 0

/-- A concrete wrapped operator: wraps its argument in a singleton tuple, so
an invocation is observable in the result. -/
def moduleF : Py Tens → Py Tens := fun v => .tup [v]

/-- A tensor arriving from device 0 (its `.device` object carries identity
token 3). -/
def tA : Tens := { shape := [4], device := 0, devId := 3, uid := 100 }

/-- Cycle `c = 1` with `M = 2` micro-batches in forward-eval mode: for stage
rank 1 this is the first output-valid cycle (`output_valid(1)` holds,
`input_valid(1)` does not). -/
def cntV1 : CycleCounter := { count := 1, num_micro := 2, cur_mode := .eval_mode }

/-- Cycle `c = 0` with `M = 2` in forward-eval mode: `output_valid(1)` does
not hold. -/
def cntI1 : CycleCounter := { count := 0, num_micro := 2, cur_mode := .eval_mode }

/-- A `LayerWrapper` at rank 1 on device 1, declaring a single output of
shape `(4,)`. -/
def lw1 : LayerWrapper := { gpu_num := 1, device := 1, output_shapes := .node [.leaf [4]] }

/-- A `SyncWrapper` at rank 1 on device 1 (device object token 7) whose
buffered record is the all-`None` tuple `(None,)` — exactly what the previous
input-invalid cycle stores via `tensors_map(inputs, lambda _: None)` (line 154
of `sync_wrapper.py`), and what the merge of the next output-valid cycle
consumes. -/
def wS1 : SyncWrapper :=
  { device := 1, devId := 7, gpu_num := 1, output_shapes := .node [.leaf [4]],
    activations := [], rng_states := [], prev_inputs := .tup [Py.none],
    grads := .none, input_devices := Option.none }

/-- **C1** (code bug): for `LayerWrapper` the dispatch behaves as claimed —
on an output-valid cycle the module is invoked exactly once on the inputs and
its result returned, otherwise a placeholder of the declared output shape is
returned with no invocation.  For `SyncWrapper`, however, the first
output-valid cycle (`c = rank`, here `c = 1`) finds the buffered record
`(None,)` left by the previous input-invalid cycle, and the merge
`tensors_bi_map(prev_inputs, inputs, ...)` raises `TypeError` (iterating
`None` in `zip`): the wrapped operator is *not* invoked and nothing is
returned, contradicting the claim. -/
theorem C1_wrapper_dispatch :
    (LayerWrapper.forward moduleF cntV1 lw1 [.tens tA] =
        .ok (moduleF (.tup [.tens tA]), [.tup [.tens tA]]))
  ∧ (LayerWrapper.forward moduleF cntI1 lw1 [.tens tA] =
        .ok (.tens { shape := [1, 4], device := 1, devId := 0, uid := 0 }, []))
  ∧ ((SyncWrapper.forward moduleF cntV1 wS1 rng0 [.tens tA]).err = some .typeError)
  ∧ ((SyncWrapper.forward moduleF cntV1 wS1 rng0 [.tens tA]).calls = []) :=
  ⟨rfl, rfl, rfl, rfl⟩

/-- Cycle `c = 1`, `M = 2`, reverse mode: for rank 1, `output_valid(1)` holds
and `input_valid(1)` does not. -/
def cntB2 : CycleCounter := { count := 1, num_micro := 2, cur_mode := .backward }

/-- **C2** (code bug): the slot-wise merge with null-fallback described by the
spec never executes.  `tensors_bi_map` applies the merge lambda only at
*tensor* leaves of the buffered record; a null (`None`) slot makes `zip`
raise `TypeError` first, in the forward path (`SyncWrapper.forward`) and in
the reverse path (`SyncWrapper.backward_mode`, where the `prepare_activation`
map over the same buffered record faults) alike, instead of using the newly
arrived value for that slot. -/
theorem C2_merge_never_falls_back :
    (tensors_bi_map merge_pref_buffered (.tup [Py.none]) (.tup [.tens tA]) =
        .error .typeError)
  ∧ ((SyncWrapper.forward moduleF cntV1 wS1 rng0 [.tens tA]).err = some .typeError)
  ∧ ((SyncWrapper.backward_mode moduleF cntB2 wS1 rng0 [.tens tA]).err = some .typeError)
  ∧ ((SyncWrapper.backward_mode moduleF cntB2 wS1 rng0 [.tens tA]).calls = []) :=
  ⟨rfl, rfl, rfl, rfl⟩

/-- Cycle `c = 2`, `M = 2`, forward-train mode: for rank 1 both
`input_valid(1)` (2 ≤ 2 ≤ 3) and `output_valid(1)` (1 ≤ 2 < 3) hold. -/
def cnt3 : CycleCounter := { count := 2, num_micro := 2, cur_mode := .train }

/-- **C3** (code bug): a forward-train, input-valid cycle that pushes no
checkpoint.  At `c = rank + 1` the merge of the buffered `(None,)` record
raises `TypeError` before the buffering step is reached, so despite the mode
being forward-train and the cycle input-valid, both checkpoint queues are
left untouched — refuting the claimed "if and only if". -/
theorem C3_no_push_on_faulting_train_cycle :
    ((SyncWrapper.forward moduleF cnt3 wS1 rng0 [.tens tA]).err = some .typeError)
  ∧ ((SyncWrapper.forward moduleF cnt3 wS1 rng0 [.tens tA]).w.activations = [])
  ∧ ((SyncWrapper.forward moduleF cnt3 wS1 rng0 [.tens tA]).w.rng_states = []) :=
  ⟨rfl, rfl, rfl⟩

/-- **C4** (amended): `finished_prop` resets the buffered `prev_inputs` (and,
for `SyncWrapper`, `grads`) to `None` but leaves both checkpoint queues
exactly as they were; the queues are empty after `finished_prop()` only if
they were empty before the call. -/
theorem C4_finished_prop_keeps_queues (w : SyncWrapper) (w2 : ActivationSavingLayer) :
    (SyncWrapper.finished_prop w).activations = w.activations ∧
    (SyncWrapper.finished_prop w).rng_states = w.rng_states ∧
    (SyncWrapper.finished_prop w).prev_inputs = .none ∧
    (SyncWrapper.finished_prop w).grads = .none ∧
    (ActivationSavingLayer.finished_prop w2).activations = w2.activations ∧
    (ActivationSavingLayer.finished_prop w2).rng_states = w2.rng_states ∧
    (ActivationSavingLayer.finished_prop w2).prev_inputs = .none :=
  ⟨rfl, rfl, rfl, rfl, rfl, rfl, rfl⟩

/-- A `SyncWrapper` still holding one checkpoint in each queue. -/
def wC4 : SyncWrapper :=
  { device := 1, devId := 7, gpu_num := 1, output_shapes := .node [.leaf [4]],
    activations := [.tup [.tens tA]], rng_states := [5], prev_inputs := .none,
    grads := .none, input_devices := Option.none }

/-- Counterexample to **C4** as stated: calling `finished_prop()` on a
`SyncWrapper` whose checkpoint queues hold one entry leaves them of length 1,
not 0 — `finished_prop` does not clear the queues. -/
theorem C4_cex_queue_survives :
    ¬ ((SyncWrapper.finished_prop wC4).activations.length = 0) := by decide

/-- **C7** (amended): every tensor slot of the placeholder synthesized by
`gen_garbage_output` has the corresponding declared shape with an extra
leading dimension of size 1 prepended (from `torch.empty(1, *shape)`), with
matching structure. -/
theorem C7_garbage_shapes (sh : TShape) (device : Nat) :
    shapes_lead1 sh (gen_garbage_output sh device) = true :=
  gen_garbage_shapes_lead1 sh device

/-- Counterexample to **C7** as stated: for declared shape `(2, 3)` the
synthesized placeholder is a tensor of shape `(1, 2, 3)`, not `(2, 3)` — the
slots do not carry exactly the declared shape. -/
theorem C7_cex_leading_one :
    shapes_exact (.leaf [2, 3]) (gen_garbage_output (.leaf [2, 3]) 0) = false := by decide

/-- A `SyncWrapper` with empty checkpoint queues on device 2. -/
def wS9 : SyncWrapper :=
  { device := 2, devId := 11, gpu_num := 1, output_shapes := .node [.leaf [4]],
    activations := [], rng_states := [], prev_inputs := .none,
    grads := .none, input_devices := Option.none }

/-- **C9** (code bug): `save_activation` on a moved record with a null slot —
exactly what the source produces for an input deemed already resident
(`delay_device` false) — appends the RNG state first and then faults cloning
the activation (`tensors_map` over a `None` slot raises `TypeError`), so the
RNG-state queue grows while the activation queue does not: the two queues end
up with different lengths, refuting the claimed invariant. -/
theorem C9_save_activation_partial_push :
    ((SyncWrapper.save_activation wS9 rng0 (.tup [Py.none])).1 = some .typeError)
  ∧ ((SyncWrapper.save_activation wS9 rng0 (.tup [Py.none])).2.rng_states = [0])
  ∧ ((SyncWrapper.save_activation wS9 rng0 (.tup [Py.none])).2.activations = [])
  ∧ ((SyncWrapper.save_activation wS9 rng0 (.tup [Py.none])).2.rng_states.length ≠
      (SyncWrapper.save_activation wS9 rng0 (.tup [Py.none])).2.activations.length) :=
  ⟨rfl, rfl, rfl, by decide⟩

/-- A tensor already residing on device 1 by *value*, whose `.device` object
(token 3) is nevertheless a different object than the wrapper's stored device
object (token 7) — the generic situation, since `tensor.device` yields a
fresh `torch.device` object. -/
def tRes : Tens := { shape := [4], device := 1, devId := 3, uid := 200 }

/-- A tensor whose `.device` object is the *identical* object as the
wrapper's stored device (token 7). -/
def tIdent : Tens := { shape := [4], device := 1, devId := 7, uid := 201 }

/-- Cycle `c = 3`, `M = 2`, forward-eval: for rank 1, `input_valid(1)` holds
(2 ≤ 3 ≤ 3) but `output_valid(1)` does not (3 < 3 fails). -/
def cnt10e : CycleCounter := { count := 3, num_micro := 2, cur_mode := .eval_mode }

/-- Cycle `c = 3`, `M = 2`, forward-train. -/
def cnt10t : CycleCounter := { count := 3, num_micro := 2, cur_mode := .train }

/-- A fresh `SyncWrapper` at rank 1 on device 1 (device object token 7). -/
def wS10 : SyncWrapper :=
  { device := 1, devId := 7, gpu_num := 1, output_shapes := .node [.leaf [4]],
    activations := [], rng_states := [], prev_inputs := .none,
    grads := .none, input_devices := Option.none }

/-- **C10** (code bug): residence on the stage's device does not make a slot
null.  `delay_device` compares device *object identity* (`is not`), so a
tensor on the stage's own device by value (`tRes`) is still treated as remote
and recorded as a tensor, not `None`, in `prev_inputs`.  And when the device
object *is* identical (`tIdent`), the null slot makes the train-mode
checkpoint step fault (`save_activation` raises `TypeError`), so the claimed
"recorded as null in both buffered_input and the checkpoint" never happens:
`prev_inputs` stays unset and the activation queue stays empty. -/
theorem C10_resident_by_value_not_nulled :
    ((SyncWrapper.forward moduleF cnt10e wS10 rng0 [.tens tRes]).err = Option.none)
  ∧ ((SyncWrapper.forward moduleF cnt10e wS10 rng0 [.tens tRes]).w.prev_inputs =
      .tup [.tens (tens_to tRes wS10.device)])
  ∧ ((SyncWrapper.forward moduleF cnt10e wS10 rng0 [.tens tRes]).w.prev_inputs ≠
      .tup [Py.none])
  ∧ ((SyncWrapper.forward moduleF cnt10t wS10 rng0 [.tens tIdent]).err = some .typeError)
  ∧ ((SyncWrapper.forward moduleF cnt10t wS10 rng0 [.tens tIdent]).w.activations = [])
  ∧ ((SyncWrapper.forward moduleF cnt10t wS10 rng0 [.tens tIdent]).w.prev_inputs = .none) :=
  ⟨rfl, rfl, by decide, rfl, rfl, rfl⟩

end GPipe

namespace GPipe

/-- **C5**: the entry stage's reverse step (`pop_activation` followed by
`backward_mode`).  When `output_valid(0)` holds and the queues are nonempty,
the oldest RNG state is restored on the layer's device, the oldest checkpoint
is popped and returned (unwrapped when of length 1), and both queues shrink
by one.  When `output_valid(0)` does not hold, an `empty_like` placeholder
record shaped like the incoming value is returned and the state is left
unchanged. -/
theorem C5_entry_reverse_replay (cnt : CycleCounter) (w : ActivationSavingLayer)
    (rng : Rng) (inputs : List (Py Tens)) (r : Nat) (rs : List Nat)
    (a av ph phv : Py Tens) (acts : List (Py Tens)) (hg : w.gpu_num = 0) :
    (cnt.output_valid 0 = true → w.rng_states = r :: rs → w.activations = a :: acts →
      unwrap_single a = .ok av →
      ActivationSavingLayer.reverse_step cnt w rng inputs =
        { err := Option.none, out := av,
          w := { w with rng_states := rs, activations := acts, prev_inputs := a },
          rng := set_rng_state rng w.device r })
  ∧ (cnt.output_valid 0 = false →
      tensors_map (fun t => .tens (empty_like t)) (.tup inputs) = .ok ph →
      unwrap_single ph = .ok phv →
      ActivationSavingLayer.reverse_step cnt w rng inputs =
        { err := Option.none, out := phv, w := w, rng := rng }) := by
  constructor
  · intro hv hr ha hun
    simp only [ActivationSavingLayer.reverse_step, ActivationSavingLayer.pop_activation,
      hg, hv, if_true, hr, ha, ActivationSavingLayer.backward_mode]
    simp [hun]
  · intro hv hph hun
    simp only [ActivationSavingLayer.reverse_step, ActivationSavingLayer.pop_activation,
      hg, hv, Bool.false_eq_true, if_false, ActivationSavingLayer.backward_mode]
    simp [hph, hun]

/-- A checkpointed tensor on device 0. -/
def tC5 : Tens := { shape := [2], device := 0, devId := 1, uid := 7 }

/-- An incoming gradient-side tensor on device 0. -/
def gC5 : Tens := { shape := [2], device := 0, devId := 2, uid := 9 }

/-- Entry stage holding exactly one checkpoint `((tC5,), rng-state 42)`. -/
def wASL5 : ActivationSavingLayer :=
  { device := 0, activations := [.tup [.tens tC5]], rng_states := [42],
    prev_inputs := .none, gpu_num := 0 }

/-- Reverse cycle `c = 0`, `M = 1`: `output_valid(0)` holds. -/
def cnt5v : CycleCounter := { count := 0, num_micro := 1, cur_mode := .backward }

/-- Reverse cycle `c = 1`, `M = 1`: `output_valid(0)` does not hold. -/
def cnt5i : CycleCounter := { count := 1, num_micro := 1, cur_mode := .backward }

/-- Witness for C5, both branches: with one queued checkpoint the valid cycle
returns it (unwrapped) and restores RNG state 42 on device 0; the invalid
cycle returns an `empty_like` placeholder and changes nothing. -/
theorem C5_witness :
    (wASL5.gpu_num = 0 ∧ cnt5v.output_valid 0 = true ∧ wASL5.rng_states = [42] ∧
      wASL5.activations = [.tup [.tens tC5]] ∧
      unwrap_single (.tup [.tens tC5]) = .ok (.tens tC5) ∧
      cnt5i.output_valid 0 = false ∧
      tensors_map (fun t => .tens (empty_like t)) (.tup [(.tens gC5 : Py Tens)]) =
        .ok (.tup [.tens (empty_like gC5)]) ∧
      unwrap_single (.tup [.tens (empty_like gC5)]) = .ok (.tens (empty_like gC5))) ∧
    ActivationSavingLayer.reverse_step cnt5v wASL5 rng0 [.tens gC5] =
      { err := Option.none, out := .tens tC5,
        w := { wASL5 with rng_states := ([] : List Nat), activations := ([] : List (Py Tens)), prev_inputs := .tup [.tens tC5] },
        rng := set_rng_state rng0 wASL5.device 42 } ∧
    ActivationSavingLayer.reverse_step cnt5i wASL5 rng0 [.tens gC5] =
      { err := Option.none, out := .tens (empty_like gC5), w := wASL5, rng := rng0 } :=
  ⟨⟨rfl, by decide, rfl, rfl, by decide, by decide, by decide, by decide⟩,
   (C5_entry_reverse_replay cnt5v wASL5 rng0 [.tens gC5] 42 [] (.tup [.tens tC5])
      (.tens tC5) .none .none [] rfl).1 (by decide) rfl rfl (by decide),
   (C5_entry_reverse_replay cnt5i wASL5 rng0 [.tens gC5] 0 [] .none .none
      (.tup [.tens (empty_like gC5)]) (.tens (empty_like gC5)) [] rfl).2
      (by decide) (by decide) (by decide)⟩

/-- **C6**: popping with `output_valid(rank)` true and an empty checkpoint
queue raises `IndexError` (`list.pop(0)` on an empty list) — the fatal
underflow the spec names `QueueUnderflowError` — instead of silently
returning or succeeding as a no-op; the state and RNG environment are exactly
as before the call.  Instantiated at a fresh stage (empty queues, as before
any forward sweep of the batch lifecycle) by the witness. -/
theorem C6_pop_empty_queue_faults (cnt : CycleCounter) (w : SyncWrapper)
    (w2 : ActivationSavingLayer) (rng rng2 : Rng) :
    (cnt.output_valid w.gpu_num = true → w.rng_states = [] →
      SyncWrapper.pop_activation cnt w rng = (some .indexError, w, rng))
  ∧ (cnt.output_valid w2.gpu_num = true → w2.rng_states = [] →
      ActivationSavingLayer.pop_activation cnt w2 rng2 = (some .indexError, w2, rng2)) := by
  constructor
  · intro hv hr
    simp [SyncWrapper.pop_activation, hv, hr]
  · intro hv hr
    simp [ActivationSavingLayer.pop_activation, hv, hr]

/-- Reverse cycle `c = 1`, `M = 1`: `output_valid(1)` holds. -/
def cnt6 : CycleCounter := { count := 1, num_micro := 1, cur_mode := .backward }

/-- Reverse cycle `c = 0`, `M = 1`: `output_valid(0)` holds. -/
def cnt6e : CycleCounter := { count := 0, num_micro := 1, cur_mode := .backward }

/-- A fresh `SyncWrapper` (empty queues), as before any forward sweep. -/
def wS6 : SyncWrapper :=
  { device := 1, devId := 7, gpu_num := 1, output_shapes := .node [.leaf [4]],
    activations := [], rng_states := [], prev_inputs := .none,
    grads := .none, input_devices := Option.none }

/-- A fresh entry stage (empty queues), as before any forward sweep. -/
def wASL6 : ActivationSavingLayer :=
  { device := 0, activations := [], rng_states := [], prev_inputs := .none,
    gpu_num := 0 }

/-- Witness for C6: running the reverse pop on fresh stages (no forward sweep
has filled the queues) at an output-valid cycle raises `IndexError` for both
wrapper classes. -/
theorem C6_witness :
    (cnt6.output_valid wS6.gpu_num = true ∧ wS6.rng_states = [] ∧
      cnt6e.output_valid wASL6.gpu_num = true ∧ wASL6.rng_states = []) ∧
    SyncWrapper.pop_activation cnt6 wS6 rng0 = (some .indexError, wS6, rng0) ∧
    ActivationSavingLayer.pop_activation cnt6e wASL6 rng0 =
      (some .indexError, wASL6, rng0) :=
  ⟨⟨by decide, rfl, by decide, rfl⟩,
   (C6_pop_empty_queue_faults cnt6 wS6 wASL6 rng0 rng0).1 (by decide) rfl,
   (C6_pop_empty_queue_faults cnt6e wS6 wASL6 rng0 rng0).2 (by decide) rfl⟩

end GPipe
